import Mathlib

/-!
Verification development for the tensorizer HuggingFace serialization
example (`examples/hf_serialization.py`).

The file gives a shallow embedding of the save/load orchestration of that
script — `check_file_exists`, `serialize_model`, the path construction and
config-loading logic of `load_model`, and `hf_main`'s trailing-slash
normalization — over an explicit file-system/object-store state.  The
pieces of the pipeline whose code lives outside this tree (the
`tensorizer` library's `TensorSerializer`, `TensorDeserializer` and
`stream_io`) are modelled from the specification and marked as such in
their doc comments.
-/

namespace HFSer

/-- Byte strings, modelled as lists of naturals. -/
abbrev Bytes := List Nat

/-- File-system / object-store state.  `contents p = some b` means a file or
object exists at path `p` with contents `b`; `isLocal p` says whether `p` is
a local filesystem path, i.e. whether `os.path.exists` can observe it. -/
structure FS where
  contents : String → Option Bytes
  isLocal : String → Bool

/-- Embedding of `os.path.exists(file)`: true exactly when the path is a
local path and a file is present there. -/
def osPathExists (fs : FS) (file : String) : Bool :=
  fs.isLocal file && (fs.contents file).isSome

/-- Modelled from the spec: `stream_io.open_stream(file, "rb").read()` —
the storage stream adapter's read stream yields the stored contents, and a
location with no stored object reads as the empty stream (the spec's
existence probe "fails (not-exists) if the stream is immediately empty"),
rather than raising. -/
def streamRead (fs : FS) (file : String) : Bytes :=
  (fs.contents file).getD []

/-- Embedding of `check_file_exists` (`hf_serialization.py`, lines 45-53):
if `os.path.exists` reports the file, return true; otherwise open a read
stream and read one byte — an empty read means the file does not exist. -/
def check_file_exists (fs : FS) (file : String) : Bool :=
  if osPathExists fs file then
    true
  else
    if (streamRead fs file).take 1 = [] then false else true

/-- A single tensor as stored in a tensor artifact: numeric-kind tag,
shape, and raw payload bytes. -/
structure Tensor where
  dtype : Nat
  shape : List Nat
  payload : Bytes
deriving DecidableEq, Repr

/-- Modelled from the spec (§4.2 Tensor Store Writer): one self-describing
record — name length, name bytes, dtype tag, rank, shape dims, payload
length, then the raw payload. -/
def encodeRecord (name : String) (t : Tensor) : Bytes :=
  let nb := name.data.map Char.toNat
  nb.length :: (nb ++ (t.dtype :: t.shape.length ::
    (t.shape ++ (t.payload.length :: t.payload))))

/-- Modelled from the spec (§4.2): the tensor artifact is the concatenation
of the records of the collection, in iteration order, with no padding. -/
def encodeTensors (ts : List (String × Tensor)) : Bytes :=
  ts.foldr (fun nt acc => encodeRecord nt.1 nt.2 ++ acc) []

/-- Read exactly `n` bytes from the front of a stream, failing if fewer are
available. -/
def readN (n : Nat) (b : Bytes) : Option (Bytes × Bytes) :=
  if n ≤ b.length then some (b.take n, b.drop n) else none

/-- Read a single byte off the front of a stream. -/
def readByte : Bytes → Option (Nat × Bytes)
  | [] => none
  | x :: xs => some (x, xs)

/-- Modelled from the spec (§4.3 Tensor Store Reader): parse one
self-describing record off the front of the stream — name length, name
bytes, dtype tag, rank, shape dims, payload length, payload. -/
def decodeRecord (b : Bytes) : Option ((String × Tensor) × Bytes) := do
  let (nl, r1) ← readByte b
  let (nb, r2) ← readN nl r1
  let (dt, r3) ← readByte r2
  let (sl, r4) ← readByte r3
  let (shape, r5) ← readN sl r4
  let (pl, r6) ← readByte r5
  let (payload, r7) ← readN pl r6
  return ((String.mk (nb.map Char.ofNat), ⟨dt, shape, payload⟩), r7)

/-- Modelled from the spec (§4.3): parse records until the stream is
exhausted.  The fuel argument bounds the number of records; each record
occupies at least one byte, so fuel equal to the stream length suffices. -/
def decodeRecords : Nat → Bytes → Option (List (String × Tensor))
  | _, [] => some []
  | 0, _ :: _ => none
  | Nat.succ fuel, x :: xs => do
    let (r, rest) ← decodeRecord (x :: xs)
    let tail ← decodeRecords fuel rest
    return r :: tail

/-- Modelled from the spec (§4.3): the deserializer's view of a tensor
artifact — the full decoded directory of named tensors. -/
def decodeTensors (b : Bytes) : Option (List (String × Tensor)) :=
  decodeRecords b.length b

/-- How a Python object behaves when `serialize_model` uses it as the
config: it either has a `to_dict` method (carrying the bytes of
`json.dumps(obj.to_dict())`), is a plain `dict` (carrying the bytes of
`json.dumps(obj)`), or is neither. -/
inductive ConfigArg where
  | withToDict (d : Bytes)
  | asDict (d : Bytes)
  | plain
deriving DecidableEq, Repr

/-- The bytes `serialize_model` writes into the opened config stream
(`hf_serialization.py`, lines 94-99): the `to_dict` JSON if available, the
dict JSON if the config is a dict, and nothing at all otherwise (the stream
is still opened for writing in that case). -/
def configBytes : ConfigArg → Bytes
  | .withToDict d => d
  | .asDict d => d
  | .plain => []

/-- The model object as `serialize_model` sees it: its named tensors (the
module walked by `TensorSerializer.write_module`) and its behavior when
substituted for a missing config (`config = model`). -/
structure HFModel where
  tensors : List (String × Tensor)
  asConfig : ConfigArg

/-- The config and tensor artifact paths `serialize_model` builds
(`hf_serialization.py`, lines 82-87): `model_prefix` defaults to `"model"`,
`dir_prefix` is `f"{model_directory}/{model_prefix}"`, and the artifacts
are `f"{dir_prefix}-config.json"` and `f"{dir_prefix}.tensors"`. -/
def serializeModelPaths (model_directory : String) (pfx : Option String) :
    String × String :=
  let p := pfx.getD "model"
  let dirPfx := model_directory ++ "/" ++ p
  (dirPfx ++ "-config.json", dirPfx ++ ".tensors")

/-- Modelled from the spec: writing through the storage stream adapter
replaces (or creates) the object at the path with the bytes written to the
stream — opening for write touches the location even when zero bytes are
then written. -/
def FS.setFile (fs : FS) (p : String) (b : Bytes) : FS :=
  { fs with contents := fun q => if q = p then some b else fs.contents q }

/-- Apply a sequence of write events (path, bytes written) to the state. -/
def applyWrites (fs : FS) (ws : List (String × Bytes)) : FS :=
  ws.foldl (fun acc pb => acc.setFile pb.1 pb.2) fs

/-- Embedding of `serialize_model` (`hf_serialization.py`, lines 56-105).
Returns the new state together with the list of write events performed
(each event is one opened write stream and the bytes written to it).
Control flow follows the source: default the prefix, probe both artifacts,
substitute the model for a missing config (after which the config is never
`None`), write the config artifact iff it was not seen or `force`, and
independently write the tensor artifact iff it was not seen or `force`. -/
def serialize_model (fs : FS) (model : HFModel) (config : Option ConfigArg)
    (model_directory : String) (pfx : Option String) (force : Bool) :
    FS × List (String × Bytes) :=
  let paths := serializeModelPaths model_directory pfx
  let config_path := paths.1
  let tensors_path := paths.2
  let config_file_exists := check_file_exists fs config_path
  let weights_file_exists := check_file_exists fs tensors_path
  let cfg := config.getD model.asConfig
  let configWrites :=
    if (!config_file_exists) || force then [(config_path, configBytes cfg)] else []
  let tensorWrites :=
    if (!weights_file_exists) || force then
      [(tensors_path, encodeTensors model.tensors)]
    else []
  let ws := configWrites ++ tensorWrites
  (applyWrites fs ws, ws)

/-- The config and tensor artifact URIs `load_model` builds
(`hf_serialization.py`, lines 134-141): the prefix (defaulted to
`"model"` when `None`) joined onto `path_uri`. -/
def loadModelUris (path_uri : String) (pfx : Option String) :
    String × String :=
  let p := pfx.getD "model"
  (path_uri ++ "/" ++ p ++ "-config.json", path_uri ++ "/" ++ p ++ ".tensors")

/-- The tensor half of `load_model` (`hf_serialization.py`, lines 141-148
and 177): open the tensor URI, decode the artifact, and apply the
deserializer's dtype conversion (`conv`, modelled from the spec's
"dtype conversion on access") to every tensor exactly when a `dtype`
argument was supplied; with `dtype = none` the stored tensors are
preserved. -/
def loadModelTensors (conv : Nat → Tensor → Tensor) (fs : FS)
    (path_uri : String) (pfx : Option String) (dtype : Option Nat) :
    Option (List (String × Tensor)) :=
  let tensors_uri := (loadModelUris path_uri pfx).2
  (decodeTensors (streamRead fs tensors_uri)).map fun ts =>
    match dtype with
    | none => ts
    | some d => ts.map fun nt => (nt.1, conv d nt.2)

/-- Modelled from the spec (§4.3): `load_into` binds each target slot by
name — slots with no corresponding stored entry are left at their pre-load
state (`none`). -/
def loadIntoModule (slots : List String) (store : List (String × Tensor)) :
    List (String × Option Tensor) :=
  slots.map fun n => (n, store.lookup n)

/-- Python exceptions, as far as the config-loading control flow of
`load_model` distinguishes them: `except ValueError` catches exactly
`valueError`, anything else propagates. -/
inductive PyErr where
  | valueError
  | otherError
deriving DecidableEq, Repr

/-- A HuggingFace-style config object, with the one attribute the script
manipulates (`config.gradient_checkpointing`) explicit and the rest
opaque. -/
structure HFConfig where
  fields : List (String × Bytes)
  gradient_checkpointing : Bool
deriving DecidableEq, Repr

/-- The behavior of a `config_class` argument to `load_model`:
`fromPretrainedBytes b` is `config_class.from_pretrained(temp_dir)` after
the config artifact's bytes `b` were copied into `temp_dir/config.json`,
and `fromPretrainedUri u` is `config_class.from_pretrained(u)` applied to
the config URI directly. -/
structure ConfigClass where
  fromPretrainedBytes : Bytes → Except PyErr HFConfig
  fromPretrainedUri : String → Except PyErr HFConfig

/-- Embedding of the `config_class is not None` branch of `load_model`
(`hf_serialization.py`, lines 150-160): try the temp-directory structured
load of the config artifact's bytes and, on success, set
`gradient_checkpointing = True`; on `ValueError` fall back — once — to the
structured loader applied to the config URI itself; any other error
propagates. -/
def loadConfigWithClass (cc : ConfigClass) (fs : FS) (config_uri : String) :
    Except PyErr HFConfig :=
  match cc.fromPretrainedBytes (streamRead fs config_uri) with
  | .ok c => .ok { c with gradient_checkpointing := true }
  | .error .valueError => cc.fromPretrainedUri config_uri
  | .error e => .error e

/-- Embedding of the `config_class is None` branch of `load_model`
(`hf_serialization.py`, lines 167-173): try `json.loads` on the streamed
config artifact; on `ValueError` fall back — once — to opening the URI as
a local file and `json.load`-ing it (`localJsonLoad`); any other error
propagates.  `jsonLoads` and `localJsonLoad` stand for the Python library
calls, which are outside this tree. -/
def loadConfigNoClass (jsonLoads : Bytes → Except PyErr (List (String × Bytes)))
    (localJsonLoad : FS → String → Except PyErr (List (String × Bytes)))
    (fs : FS) (config_uri : String) :
    Except PyErr (List (String × Bytes)) :=
  match jsonLoads (streamRead fs config_uri) with
  | .ok c => .ok c
  | .error .valueError => localJsonLoad fs config_uri
  | .error e => .error e

/-- Embedding of `hf_main`'s base normalization (`hf_serialization.py`,
line 253): `output_prefix[:-1] if output_prefix[-1] == "/" else
output_prefix` — exactly one trailing slash is stripped, by the driver,
before `serialize_model`/`load_model` are invoked.  (Python raises
`IndexError` on the empty string; the embedding returns it unchanged.) -/
def hfMainNormalize (outPfx : String) : String :=
  match outPfx.data.getLast? with
  | some '/' => String.mk outPfx.data.dropLast
  | _ => outPfx

/-! Concrete fixtures used by the closed instances below. -/

/-- An empty store: no file exists anywhere, no path is local. -/
def fsEmpty : FS := ⟨fun _ => none, fun _ => false⟩

/-- A two-tensor model whose object has no `to_dict` and is not a dict. -/
def model0 : HFModel :=
  ⟨[("w1", ⟨0, [2], [7, 7]⟩), ("b1", ⟨1, [1], [3]⟩)], ConfigArg.plain⟩

/-- A one-tensor model carrying a `to_dict`-style config (the bytes of an
empty JSON object). -/
def model1 : HFModel :=
  ⟨[("w1", ⟨0, [2], [7, 7]⟩)], ConfigArg.withToDict [123, 125]⟩

/-- A store already holding both artifacts under `d/model`. -/
def fsBoth : FS :=
  ⟨fun p =>
    if p = "d/model-config.json" then some [123, 125]
    else if p = "d/model.tensors" then some [9] else none,
   fun _ => false⟩

/-- A store holding only the config artifact under `d/model`. -/
def fsCfgOnly : FS :=
  ⟨fun p => if p = "d/model-config.json" then some [123, 125] else none,
   fun _ => false⟩

/-- A sample dtype-conversion function for the deserializer. -/
def conv0 : Nat → Tensor → Tensor := fun d t => ⟨d, t.shape, t.payload⟩

/-- Sample configs, pairwise distinct, all with the checkpointing flag
unset. -/
def cfgA : HFConfig := ⟨[], false⟩

/-- A second sample config. -/
def cfgB : HFConfig := ⟨[("x", [1])], false⟩

/-- A third sample config. -/
def cfgC : HFConfig := ⟨[("y", [2])], false⟩

/-- A structured bytes-loader that always raises `ValueError`. -/
def bytesFailVE : Bytes → Except PyErr HFConfig :=
  fun _ => Except.error PyErr.valueError

/-- A config class whose temp-dir load raises `ValueError` and whose
URI load yields `cfgA`. -/
def ccA : ConfigClass := ⟨bytesFailVE, fun _ => Except.ok cfgA⟩

/-- Same bytes-loader as `ccA`, but the URI load yields `cfgB`. -/
def ccB : ConfigClass := ⟨bytesFailVE, fun _ => Except.ok cfgB⟩

/-- A config class whose temp-dir load succeeds with `cfgC`. -/
def ccOk : ConfigClass := ⟨fun _ => Except.ok cfgC, fun _ => Except.ok cfgA⟩

/-- A flat JSON parser that always raises `ValueError`. -/
def jlVE : Bytes → Except PyErr (List (String × Bytes)) :=
  fun _ => Except.error PyErr.valueError

/-- A local-file JSON loader that succeeds with a fixed mapping. -/
def llOk : FS → String → Except PyErr (List (String × Bytes)) :=
  fun _ _ => Except.ok [("k", [1])]

/-! Helper lemmas about the tensor-record encoding. -/

lemma readN_exact (n : Nat) (a b : Bytes) (h : n = a.length) :
    readN n (a ++ b) = some (a, b) := by
  subst h
  simp [readN, List.take_left, List.drop_left]

lemma map_ofNat_toNat (l : List Char) :
    (l.map Char.toNat).map Char.ofNat = l := by
  simp [List.map_map, Function.comp_def, Char.ofNat_toNat]

lemma decodeRecord_encodeRecord (name : String) (t : Tensor) (rest : Bytes) :
    decodeRecord (encodeRecord name t ++ rest) = some ((name, t), rest) := by
  obtain ⟨nd⟩ := name
  simp only [encodeRecord, List.cons_append, List.append_assoc]
  simp [decodeRecord, readByte, readN_exact, map_ofNat_toNat,
    Function.comp_def, Char.ofNat_toNat]

lemma length_encodeTensors (ts : List (String × Tensor)) :
    ts.length ≤ (encodeTensors ts).length := by
  induction ts with
  | nil => simp [encodeTensors]
  | cons nt ts ih =>
    have hstep : encodeTensors (nt :: ts) =
        encodeRecord nt.1 nt.2 ++ encodeTensors ts := rfl
    rw [hstep]
    simp only [encodeRecord, List.length_append, List.length_cons,
      List.length_map]
    omega

lemma decodeRecords_encodeTensors (ts : List (String × Tensor)) :
    ∀ fuel, ts.length ≤ fuel →
      decodeRecords fuel (encodeTensors ts) = some ts := by
  induction ts with
  | nil =>
    intro fuel _
    have h0 : encodeTensors [] = [] := rfl
    rw [h0]
    cases fuel <;> rfl
  | cons nt ts ih =>
    intro fuel hf
    obtain ⟨n, t⟩ := nt
    cases fuel with
    | zero => simp at hf
    | succ f =>
      have hstep : encodeTensors ((n, t) :: ts) =
          encodeRecord n t ++ encodeTensors ts := rfl
      rw [hstep]
      have hcons : encodeRecord n t ++ encodeTensors ts =
          (n.data.map Char.toNat).length ::
            ((n.data.map Char.toNat ++ (t.dtype :: t.shape.length ::
              (t.shape ++ (t.payload.length :: t.payload)))) ++
              encodeTensors ts) := rfl
      rw [hcons]
      simp only [decodeRecords]
      rw [← hcons, decodeRecord_encodeRecord]
      have hf' : ts.length ≤ f := by
        simp only [List.length_cons] at hf
        omega
      show (Option.bind (decodeRecords f (encodeTensors ts))
        fun tail => some ((n, t) :: tail)) = some ((n, t) :: ts)
      rw [ih f hf']
      rfl

lemma decodeTensors_encodeTensors (ts : List (String × Tensor)) :
    decodeTensors (encodeTensors ts) = some ts :=
  decodeRecords_encodeTensors ts _ (length_encodeTensors ts)

/-! Helper lemmas about paths, probes and slot binding. -/

lemma serializeModelPaths_ne (d : String) (pfx : Option String) :
    (serializeModelPaths d pfx).1 ≠ (serializeModelPaths d pfx).2 := by
  simp only [serializeModelPaths]
  intro h
  have h2 := congrArg String.data h
  simp only [String.data_append, List.append_assoc] at h2
  have h3 := List.append_cancel_left h2
  have h4 := List.append_cancel_left h3
  have h5 := List.append_cancel_left h4
  exact absurd h5 (by decide)

lemma check_file_exists_of_absent (fs : FS) (p : String)
    (h : fs.contents p = none) : check_file_exists fs p = false := by
  simp [check_file_exists, osPathExists, streamRead, h]

lemma loadIntoModule_self (ts : List (String × Tensor))
    (h : (ts.map Prod.fst).Nodup) :
    loadIntoModule (ts.map Prod.fst) ts =
      ts.map fun nt => (nt.1, some nt.2) := by
  induction ts with
  | nil => rfl
  | cons nt ts ih =>
    obtain ⟨n, t⟩ := nt
    simp only [List.map_cons, List.nodup_cons] at h
    obtain ⟨hn, hnd⟩ := h
    simp only [loadIntoModule, List.map_cons] at ih ⊢
    refine congrArg₂ List.cons (by simp [List.lookup]) ?_
    rw [← ih hnd]
    refine List.map_congr_left fun m hm => ?_
    have hne : (m == n) = false := by
      refine beq_eq_false_iff_ne.mpr fun hmn => hn ?_
      exact hmn ▸ hm
    simp [List.lookup, hne]

lemma hfMainNormalize_strip (b : String) (hb : b.data.getLast? ≠ some '/') :
    hfMainNormalize (b ++ "/") = b ∧ hfMainNormalize b = b := by
  constructor
  · have h1 : (b ++ "/").data = b.data ++ ['/'] := by
      rw [String.data_append]
    simp only [hfMainNormalize, h1, List.getLast?_concat, List.dropLast_concat]
  · unfold hfMainNormalize
    split
    · next heq => exact absurd heq hb
    · rfl

/-! Claim theorems. -/

/-- Claim C5: for every file location, `check_file_exists` returns true if
the local path exists or the first byte of the opened stream can be read,
and returns false exactly when the opened stream is immediately empty. -/
theorem c5_existence_probe (fs : FS) (file : String) :
    check_file_exists fs file =
      (osPathExists fs file || !(streamRead fs file).isEmpty) := by
  cases hop : osPathExists fs file <;>
    cases hsr : streamRead fs file <;>
      simp [check_file_exists, hop, hsr]

/-- Claim C8: save and load address exactly `{base}/{prefix}.tensors` and
`{base}/{prefix}-config.json`, the two operations agree on those paths, and
an unset prefix defaults to "model" in both. -/
theorem c8_location_addressing (base p : String) :
    serializeModelPaths base (some p) =
        (base ++ "/" ++ p ++ "-config.json",
         base ++ "/" ++ p ++ ".tensors") ∧
    loadModelUris base (some p) =
        (base ++ "/" ++ p ++ "-config.json",
         base ++ "/" ++ p ++ ".tensors") ∧
    serializeModelPaths base none = serializeModelPaths base (some "model") ∧
    loadModelUris base none = loadModelUris base (some "model") :=
  ⟨rfl, rfl, rfl, rfl⟩

/-- Claim C2: when both artifacts' existence probes succeed,
`serialize_model` with `force = false` performs zero write events and
returns the state unchanged, while `force = true` rewrites both the config
artifact and the tensor artifact. -/
theorem c2_idempotent_save (fs : FS) (model : HFModel)
    (config : Option ConfigArg) (dir : String) (pfx : Option String)
    (h1 : check_file_exists fs (serializeModelPaths dir pfx).1 = true)
    (h2 : check_file_exists fs (serializeModelPaths dir pfx).2 = true) :
    serialize_model fs model config dir pfx false = (fs, []) ∧
    (serialize_model fs model config dir pfx true).2 =
      [((serializeModelPaths dir pfx).1,
        configBytes (config.getD model.asConfig)),
       ((serializeModelPaths dir pfx).2, encodeTensors model.tensors)] := by
  constructor
  · simp [serialize_model, h1, h2, applyWrites]
  · simp [serialize_model, applyWrites]

/-- Witness for C2 at a concrete store holding both artifacts. -/
theorem c2_idempotent_save_witness :
    serialize_model fsBoth model1 none "d" none false = (fsBoth, []) ∧
    (serialize_model fsBoth model1 none "d" none true).2 =
      [((serializeModelPaths "d" none).1,
        configBytes ((none : Option ConfigArg).getD model1.asConfig)),
       ((serializeModelPaths "d" none).2, encodeTensors model1.tensors)] :=
  c2_idempotent_save fsBoth model1 none "d" none (by decide) (by decide)

/-- Claim C3: when the config artifact exists but the tensor artifact does
not, `serialize_model` with `force = false` writes exactly the tensor
artifact and leaves the config artifact's contents unchanged. -/
theorem c3_partial_resume (fs : FS) (model : HFModel)
    (config : Option ConfigArg) (dir : String) (pfx : Option String)
    (h1 : check_file_exists fs (serializeModelPaths dir pfx).1 = true)
    (h2 : check_file_exists fs (serializeModelPaths dir pfx).2 = false) :
    (serialize_model fs model config dir pfx false).2 =
      [((serializeModelPaths dir pfx).2, encodeTensors model.tensors)] ∧
    (serialize_model fs model config dir pfx false).1.contents
        (serializeModelPaths dir pfx).1 =
      fs.contents (serializeModelPaths dir pfx).1 ∧
    (serialize_model fs model config dir pfx false).1.contents
        (serializeModelPaths dir pfx).2 =
      some (encodeTensors model.tensors) := by
  have hne := serializeModelPaths_ne dir pfx
  refine ⟨?_, ?_, ?_⟩ <;>
    simp [serialize_model, h1, h2, applyWrites, FS.setFile, hne]

/-- Witness for C3 at a concrete store holding only the config artifact. -/
theorem c3_partial_resume_witness :
    (serialize_model fsCfgOnly model1 none "d" none false).2 =
      [((serializeModelPaths "d" none).2, encodeTensors model1.tensors)] ∧
    (serialize_model fsCfgOnly model1 none "d" none false).1.contents
        (serializeModelPaths "d" none).1 =
      fsCfgOnly.contents (serializeModelPaths "d" none).1 ∧
    (serialize_model fsCfgOnly model1 none "d" none false).1.contents
        (serializeModelPaths "d" none).2 =
      some (encodeTensors model1.tensors) :=
  c3_partial_resume fsCfgOnly model1 none "d" none (by decide) (by decide)

/-- Claim C1: for a tensor collection with unique names, saving with
`serialize_model` to a location whose tensor artifact does not yet exist
and then loading that location yields tensors bit-identical to the
collection when no dtype was requested, applies the explicit dtype
conversion exactly when one was requested, and the by-name binding into a
module with the same slots reproduces every tensor. -/
theorem c1_roundtrip (conv : Nat → Tensor → Tensor) (fs : FS)
    (model : HFModel) (config : Option ConfigArg) (dir : String)
    (pfx : Option String) (d : Nat)
    (hnames : (model.tensors.map Prod.fst).Nodup)
    (hfresh : check_file_exists fs (serializeModelPaths dir pfx).2 = false) :
    loadModelTensors conv (serialize_model fs model config dir pfx false).1
        dir pfx none = some model.tensors ∧
    loadModelTensors conv (serialize_model fs model config dir pfx false).1
        dir pfx (some d) =
      some (model.tensors.map fun nt => (nt.1, conv d nt.2)) ∧
    loadIntoModule (model.tensors.map Prod.fst) model.tensors =
      model.tensors.map fun nt => (nt.1, some nt.2) := by
  have hcontent : (serialize_model fs model config dir pfx false).1.contents
      (serializeModelPaths dir pfx).2 = some (encodeTensors model.tensors) := by
    cases hcfg : check_file_exists fs (serializeModelPaths dir pfx).1 <;>
      simp [serialize_model, hcfg, hfresh, applyWrites, FS.setFile]
  refine ⟨?_, ?_, loadIntoModule_self _ hnames⟩ <;>
  · simp only [loadModelTensors, streamRead]
    rw [show (loadModelUris dir pfx).2 = (serializeModelPaths dir pfx).2
      from rfl, hcontent]
    simp [decodeTensors_encodeTensors]

/-- Witness for C1 at a fresh store and a concrete two-tensor model. -/
theorem c1_roundtrip_witness :
    loadModelTensors conv0 (serialize_model fsEmpty model0 none "d" none
        false).1 "d" none none = some model0.tensors ∧
    loadModelTensors conv0 (serialize_model fsEmpty model0 none "d" none
        false).1 "d" none (some 5) =
      some (model0.tensors.map fun nt => (nt.1, conv0 5 nt.2)) ∧
    loadIntoModule (model0.tensors.map Prod.fst) model0.tensors =
      model0.tensors.map fun nt => (nt.1, some nt.2) :=
  c1_roundtrip conv0 fsEmpty model0 none "d" none 5 (by decide) (by decide)

/-- Counterexample for C4 as stated: with `config = None` and a model that
has no `to_dict` and is not a dict, a `{prefix}-config.json` file IS
created at the target location (with zero bytes of content), because the
config stream is opened for writing before the `to_dict`/dict dispatch. -/
theorem c4_counterexample :
    (serialize_model fsEmpty model0 none "d" none false).1.contents
      "d/model-config.json" ≠ none := by
  decide

/-- Claim C4 (amended): when `serialize_model` is called with
`config = None` and a model with no `to_dict`-like capability that is not
a dict, no config content is written, but a zero-byte config artifact is
still created (the write stream is opened regardless); the tensor artifact
is produced as usual. -/
theorem c4_empty_config_artifact (fs : FS) (model : HFModel) (dir : String)
    (pfx : Option String)
    (hplain : model.asConfig = ConfigArg.plain)
    (h1 : check_file_exists fs (serializeModelPaths dir pfx).1 = false)
    (h2 : check_file_exists fs (serializeModelPaths dir pfx).2 = false) :
    (serialize_model fs model none dir pfx false).2 =
      [((serializeModelPaths dir pfx).1, []),
       ((serializeModelPaths dir pfx).2, encodeTensors model.tensors)] ∧
    (serialize_model fs model none dir pfx false).1.contents
        (serializeModelPaths dir pfx).1 = some [] := by
  have hne := serializeModelPaths_ne dir pfx
  constructor <;>
    simp [serialize_model, h1, h2, hplain, applyWrites, FS.setFile,
      configBytes, hne]

/-- Witness for the amended C4 at an empty store. -/
theorem c4_empty_config_artifact_witness :
    (serialize_model fsEmpty model0 none "d" none false).2 =
      [((serializeModelPaths "d" none).1, []),
       ((serializeModelPaths "d" none).2, encodeTensors model0.tensors)] ∧
    (serialize_model fsEmpty model0 none "d" none false).1.contents
        (serializeModelPaths "d" none).1 = some [] :=
  c4_empty_config_artifact fsEmpty model0 "d" none (by decide) (by decide)
    (by decide)

/-- Claim C6: when neither artifact exists, both existence probes at the
start of `serialize_model` signal not-exists (returning false rather than
raising — absent locations read as empty streams), and the save proceeds
to write both missing artifacts rather than aborting. -/
theorem c6_probe_failure_not_error (fs : FS) (model : HFModel)
    (config : Option ConfigArg) (dir : String) (pfx : Option String)
    (h1 : fs.contents (serializeModelPaths dir pfx).1 = none)
    (h2 : fs.contents (serializeModelPaths dir pfx).2 = none) :
    check_file_exists fs (serializeModelPaths dir pfx).1 = false ∧
    check_file_exists fs (serializeModelPaths dir pfx).2 = false ∧
    (serialize_model fs model config dir pfx false).2 =
      [((serializeModelPaths dir pfx).1,
        configBytes (config.getD model.asConfig)),
       ((serializeModelPaths dir pfx).2, encodeTensors model.tensors)] := by
  have hc1 := check_file_exists_of_absent fs _ h1
  have hc2 := check_file_exists_of_absent fs _ h2
  exact ⟨hc1, hc2, by simp [serialize_model, hc1, hc2]⟩

/-- Witness for C6 at an empty store. -/
theorem c6_probe_failure_not_error_witness :
    check_file_exists fsEmpty (serializeModelPaths "d" none).1 = false ∧
    check_file_exists fsEmpty (serializeModelPaths "d" none).2 = false ∧
    (serialize_model fsEmpty model1 none "d" none false).2 =
      [((serializeModelPaths "d" none).1,
        configBytes ((none : Option ConfigArg).getD model1.asConfig)),
       ((serializeModelPaths "d" none).2, encodeTensors model1.tensors)] :=
  c6_probe_failure_not_error fsEmpty model1 none "d" none rfl rfl

/-- Counterexample for C7 as stated: two config classes with the same
bytes-loader (so the artifact bytes and the first, failing attempt are
identical) give different results, so the fallback is the structured
loader applied to the URI — not a parse of the artifact as flat JSON,
which would be a function of the artifact bytes alone. -/
theorem c7_counterexample :
    ccA.fromPretrainedBytes = ccB.fromPretrainedBytes ∧
    loadConfigWithClass ccA fsEmpty "d/model-config.json" = Except.ok cfgA ∧
    loadConfigWithClass ccB fsEmpty "d/model-config.json" = Except.ok cfgB ∧
    cfgA ≠ cfgB :=
  ⟨rfl, rfl, rfl, by decide⟩

/-- Claim C7 (amended): config loading is a single deterministic two-step
attempt order — the structured load is tried first, and on a `ValueError`
it falls back exactly once, to a second structured load applied directly
to the config URI when a `config_class` was given, or to the alternate
local JSON read otherwise; the fallback's outcome, errors included, is
surfaced to the caller as is. -/
theorem c7_two_step_fallback (cc : ConfigClass)
    (jsonLoads : Bytes → Except PyErr (List (String × Bytes)))
    (localJsonLoad : FS → String → Except PyErr (List (String × Bytes)))
    (fs : FS) (uri : String)
    (h1 : cc.fromPretrainedBytes (streamRead fs uri) =
      Except.error PyErr.valueError)
    (h2 : jsonLoads (streamRead fs uri) = Except.error PyErr.valueError) :
    loadConfigWithClass cc fs uri = cc.fromPretrainedUri uri ∧
    loadConfigNoClass jsonLoads localJsonLoad fs uri = localJsonLoad fs uri := by
  constructor
  · simp [loadConfigWithClass, h1]
  · simp [loadConfigNoClass, h2]

/-- Witness for the amended C7 with concrete always-`ValueError` first
attempts. -/
theorem c7_two_step_fallback_witness :
    loadConfigWithClass ccA fsEmpty "u" = ccA.fromPretrainedUri "u" ∧
    loadConfigNoClass jlVE llOk fsEmpty "u" = llOk fsEmpty "u" :=
  c7_two_step_fallback ccA jlVE llOk fsEmpty "u" rfl rfl

/-- Counterexample for C9 as stated: `serialize_model` itself does not
normalize a trailing separator — a base with a trailing slash addresses
different artifact paths than the same base without it. -/
theorem c9_counterexample :
    serializeModelPaths "d/" none ≠ serializeModelPaths "d" none := by
  decide

/-- Claim C9 (amended): the save/load path construction does not strip
trailing separators; the `hf_main` driver strips exactly one trailing
slash from the base before invoking save and load, so a base with one
trailing slash and the same base without it address the same artifacts
when routed through `hf_main`. -/
theorem c9_hf_main_normalization (base : String) (pfx : Option String)
    (hb : base.data.getLast? ≠ some '/') :
    serializeModelPaths (hfMainNormalize (base ++ "/")) pfx =
      serializeModelPaths (hfMainNormalize base) pfx ∧
    loadModelUris (hfMainNormalize (base ++ "/")) pfx =
      loadModelUris (hfMainNormalize base) pfx ∧
    hfMainNormalize (base ++ "/") = base := by
  obtain ⟨hs, hid⟩ := hfMainNormalize_strip base hb
  rw [hs, hid]
  exact ⟨rfl, rfl, rfl⟩

/-- Witness for the amended C9 at a concrete base. -/
theorem c9_hf_main_normalization_witness :
    serializeModelPaths (hfMainNormalize ("d" ++ "/")) none =
      serializeModelPaths (hfMainNormalize "d") none ∧
    loadModelUris (hfMainNormalize ("d" ++ "/")) none =
      loadModelUris (hfMainNormalize "d") none ∧
    hfMainNormalize ("d" ++ "/") = "d" :=
  c9_hf_main_normalization "d" none (by decide)

/-- Claim C10: when the first (temporary-directory) structured config load
succeeds, the loaded config has `gradient_checkpointing` set to true
before the model is constructed; in the `ValueError` fallback path the
attribute is not set — the config is returned exactly as the URI loader
produced it — so when the URI loader's config has the flag unset the two
paths produce configs differing in that field. -/
theorem c10_gradient_checkpointing (cc cc2 : ConfigClass) (fs : FS)
    (uri : String) (c c2 : HFConfig)
    (h1 : cc.fromPretrainedBytes (streamRead fs uri) = Except.ok c)
    (h2 : cc2.fromPretrainedBytes (streamRead fs uri) =
      Except.error PyErr.valueError)
    (h3 : cc2.fromPretrainedUri uri = Except.ok c2)
    (h4 : c2.gradient_checkpointing = false) :
    loadConfigWithClass cc fs uri =
      Except.ok { c with gradient_checkpointing := true } ∧
    loadConfigWithClass cc2 fs uri = Except.ok c2 ∧
    loadConfigWithClass cc fs uri ≠ loadConfigWithClass cc2 fs uri := by
  have ha : loadConfigWithClass cc fs uri =
      Except.ok { c with gradient_checkpointing := true } := by
    simp [loadConfigWithClass, h1]
  have hb : loadConfigWithClass cc2 fs uri = Except.ok c2 := by
    simp [loadConfigWithClass, h2, h3]
  refine ⟨ha, hb, ?_⟩
  rw [ha, hb]
  intro heq
  simpa [h4] using congrArg HFConfig.gradient_checkpointing (Except.ok.inj heq)

/-- Witness for C10 with a succeeding and a falling-back config class. -/
theorem c10_gradient_checkpointing_witness :
    loadConfigWithClass ccOk fsEmpty "u" =
      Except.ok { cfgC with gradient_checkpointing := true } ∧
    loadConfigWithClass ccA fsEmpty "u" = Except.ok cfgA ∧
    loadConfigWithClass ccOk fsEmpty "u" ≠ loadConfigWithClass ccA fsEmpty "u" :=
  c10_gradient_checkpointing ccOk ccA fsEmpty "u" cfgC cfgA rfl rfl rfl rfl

end HFSer
